/-
Verification of the sentiment evaluation and aggregation core of the
AgentX AgentBeats repository.

Shallow embedding conventions:
* Python sentiment strings are modelled as Lean `String`s (the source
  passes verdicts around as plain strings).
* Python floats (confidences, scores, fractions) are modelled as `ℚ`;
  all the comparisons the claims exercise are far from representation
  boundaries.
* Python dicts built by insertion are modelled as association lists in
  insertion order; `Counter` becomes an association list of counts.
* The network call in the Assessment Runner is modelled as an explicit
  environment: a function giving the outcome (success value or error
  string) of each attempt.
-/

import Mathlib

namespace AgentX

/-! ## PurpleAgent/aggregation.py -/

/-- `SentimentResult` dataclass from `PurpleAgent/aggregation.py`. -/
structure SentimentResult where
  source_url : String
  source_title : String
  sentiment : String
  confidence : ℚ
  key_quote : String
  reasoning : String
deriving Repr, DecidableEq

/-- One step of building the Python `weights` dict in
`weighted_by_confidence`: add `c` to the weight of `s`, inserting at the
end on first occurrence (Python dict insertion order). -/
def addWeight : List (String × ℚ) → String → ℚ → List (String × ℚ)
  | [], s, c => [(s, c)]
  | (t, w) :: rest, s, c =>
      if t = s then (t, w + c) :: rest else (t, w) :: addWeight rest s c

/-- The `weights` dict of `weighted_by_confidence` after the loop. -/
def buildWeights (results : List SentimentResult) : List (String × ℚ) :=
  results.foldl (fun ws r => addWeight ws r.sentiment r.confidence) []

/-- Python `max(weights, key=weights.get)`: first key attaining the
maximum weight (later entries replace only on strictly greater weight). -/
def maxByWeight (head : String × ℚ) (rest : List (String × ℚ)) : String × ℚ :=
  rest.foldl (fun best p => if best.2 < p.2 then p else best) head

/-- `SentimentAggregator.weighted_by_confidence`. -/
def weighted_by_confidence (results : List SentimentResult) : String × ℚ :=
  if results = [] then ("neutral", 0)
  else
    let ws := buildWeights results
    let total := (results.map (·.confidence)).sum
    if total = 0 then ("neutral", 0)
    else
      match ws with
      | [] => ("neutral", 0)
      | h :: t =>
          let m := maxByWeight h t
          (m.1, m.2 / total)

/-- `SentimentAggregator.consensus_based` (default threshold 0.7 passed
explicitly by callers of this model). -/
def consensus_based (results : List SentimentResult) (threshold : ℚ) : String × ℚ :=
  if results = [] then ("neutral", 0)
  else
    let sc := weighted_by_confidence results
    if sc.2 < threshold then ("mixed", sc.2) else sc

/-- Number of judgments voting for sentiment `s` (`Counter` lookup). -/
def countSentiment (results : List SentimentResult) (s : String) : Nat :=
  (results.filter (fun r => r.sentiment = s)).length

/-- `SentimentAggregator.detect_controversy`. -/
def detect_controversy (results : List SentimentResult) : Bool :=
  if results.length < 3 then false
  else
    let total : ℚ := (results.length : ℚ)
    decide ((countSentiment results "positive" : ℚ) / total ≥ 1/4)
      && decide ((countSentiment results "negative" : ℚ) / total ≥ 1/4)

/-- One step of building a Python `Counter` as an association list in
first-occurrence order. -/
def insertCount : List (String × Nat) → String → List (String × Nat)
  | [], s => [(s, 1)]
  | (t, n) :: rest, s =>
      if t = s then (t, n + 1) :: rest else (t, n) :: insertCount rest s

/-- `Counter(sentiments)` as an association list in first-occurrence
order. -/
def counterOf (ss : List String) : List (String × Nat) :=
  ss.foldl insertCount []

/-- `SentimentAggregator.get_sentiment_distribution`. -/
def get_sentiment_distribution (results : List SentimentResult) : List (String × ℚ) :=
  if results = [] then []
  else
    let total : ℚ := (results.length : ℚ)
    (counterOf (results.map (·.sentiment))).map (fun p => (p.1, (p.2 : ℚ) / total))

/-- The `confidence_stats` dict of `calculate_confidence_stats`.  The
empty-input branch of the source omits the `"median"` key, hence the
`Option`. -/
structure ConfidenceStats where
  mean : ℚ
  min : ℚ
  max : ℚ
  median : Option ℚ
deriving Repr, DecidableEq

/-- `SentimentAggregator.calculate_confidence_stats`.  Python's
`sorted` is modelled by `List.insertionSort (· ≤ ·)` and
`sorted(confidences)[len(confidences) // 2]` by `get?` at that index
(always in bounds on the non-empty branch). -/
def calculate_confidence_stats (results : List SentimentResult) : ConfidenceStats :=
  match results.map (·.confidence) with
  | [] => ⟨0, 0, 0, none⟩
  | c :: cs =>
      ⟨(c :: cs).sum / ((c :: cs).length : ℚ),
       cs.foldl Min.min c,
       cs.foldl Max.max c,
       ((c :: cs).insertionSort (· ≤ ·)).get? ((c :: cs).length / 2)⟩

/-- The dict returned by `aggregate_advanced`.  The empty-input branch
returns `"confidence_stats": {}`, modelled as `none`. -/
structure AggregationOutcome where
  overall_sentiment : String
  confidence : ℚ
  is_controversial : Bool
  distribution : List (String × ℚ)
  confidence_stats : Option ConfidenceStats
deriving Repr, DecidableEq

/-- `SentimentAggregator.aggregate_advanced`. -/
def aggregate_advanced (results : List SentimentResult) : AggregationOutcome :=
  if results = [] then ⟨"neutral", 0, false, [], none⟩
  else
    let sc := consensus_based results (7/10)
    let isc := detect_controversy results
    let s :=
      if isc ∧ ¬(sc.1 = "mixed" ∨ sc.1 = "neutral") then "mixed" else sc.1
    ⟨s, sc.2, isc, get_sentiment_distribution results,
     some (calculate_confidence_stats results)⟩

/-! ## GreenAgent/ground_truth.py -/

/-- The fields of a `GROUND_TRUTH` entry that the scoring pipeline
reads (`verified_sentiment` and `confidence`); the remaining fields are
descriptive metadata never consulted by the code under verification. -/
structure GroundTruthEntry where
  verified_sentiment : String
  confidence : ℚ
deriving Repr, DecidableEq

/-- The `GROUND_TRUTH` dict of `GreenAgent/ground_truth.py`: all 26
topics with their verified sentiment and label confidence. -/
def GROUND_TRUTH : List (String × GroundTruthEntry) :=
  [("iPhone 16", ⟨"positive", 85/100⟩),
   ("Twitter rebrand to X", ⟨"negative", 83/100⟩),
   ("ChatGPT", ⟨"mixed", 84/100⟩),
   ("climate change", ⟨"negative", 90/100⟩),
   ("Taylor Swift Eras Tour", ⟨"positive", 95/100⟩),
   ("remote work", ⟨"mixed", 85/100⟩),
   ("AI replacing jobs", ⟨"negative", 85/100⟩),
   ("electric vehicles", ⟨"mixed", 80/100⟩),
   ("return to office mandates", ⟨"negative", 90/100⟩),
   ("M4 MacBook Pro", ⟨"positive", 88/100⟩),
   ("Steam Deck", ⟨"positive", 83/100⟩),
   ("Windows 11 forced updates", ⟨"negative", 81/100⟩),
   ("Windows 11", ⟨"mixed", 78/100⟩),
   ("Threads social media app", ⟨"mixed", 76/100⟩),
   ("GitHub Copilot", ⟨"positive", 84/100⟩),
   ("AI generated art", ⟨"mixed", 79/100⟩),
   ("Barbie movie 2023", ⟨"positive", 87/100⟩),
   ("Baldurs Gate 3", ⟨"positive", 91/100⟩),
   ("4-day work week", ⟨"positive", 86/100⟩),
   ("inflation 2024", ⟨"mixed", 82/100⟩),
   ("cryptocurrency regulation", ⟨"mixed", 80/100⟩),
   ("Ozempic for weight loss", ⟨"mixed", 81/100⟩),
   ("mental health awareness", ⟨"positive", 85/100⟩),
   ("pineapple on pizza", ⟨"mixed", 83/100⟩),
   ("daylight saving time", ⟨"mixed", 82/100⟩),
   ("self-checkout machines", ⟨"mixed", 80/100⟩)]

/-- `get_ground_truth`: exact-string lookup, returning the sentinel
`unknown` entry (confidence 0.0) for missing topics. -/
def get_ground_truth (topic : String) : GroundTruthEntry :=
  match GROUND_TRUTH.find? (fun p => p.1 = topic) with
  | some p => p.2
  | none => ⟨"unknown", 0⟩

/-- The `close_matches` dict of `calculate_accuracy`. -/
def close_matches : List ((String × String) × ℚ) :=
  [(("mixed", "neutral"), 3/5), (("neutral", "mixed"), 3/5)]

/-- The dict of `calculate_accuracy` giving part credit (named
`credit_matches` here; the source calls it the second, lower-credit
match table). -/
def credit_matches : List ((String × String) × ℚ) :=
  [(("positive", "mixed"), 2/5), (("negative", "mixed"), 2/5),
   (("mixed", "positive"), 3/10), (("mixed", "negative"), 3/10)]

/-- Python `dict` lookup (`key in d` / `d[key]`) on a small literal
dict modelled as an association list. -/
def dictLookup (tbl : List ((String × String) × ℚ)) (k : String × String) : Option ℚ :=
  (tbl.find? (fun e => e.1 = k)).map Prod.snd

/-- `calculate_accuracy` from `GreenAgent/ground_truth.py`. -/
def calculate_accuracy (predicted topic : String) : ℚ :=
  let actual := (get_ground_truth topic).verified_sentiment
  if actual = "unknown" then 1/2
  else if predicted = actual then 1
  else
    match dictLookup close_matches (predicted, actual) with
    | some x => x
    | none =>
        match dictLookup credit_matches (predicted, actual) with
        | some x => x
        | none => 0

/-! ## GreenAgent/green_agent.py -/

/-- `AssessmentResult` dataclass (the `details` payload dict is
descriptive only and is not modelled as a separate field beyond the
error string it would carry). -/
structure AssessmentResult where
  topic : String
  expected_sentiment : String
  actual_sentiment : String
  confidence : ℚ
  sources_analyzed : Nat
  correct : Bool
  accuracy_score : ℚ
  time_taken : ℚ
  category : String
  difficulty : String
  ground_truth_confidence : ℚ
  error : Option String
deriving Repr, DecidableEq

/-- One test case dict (`topic`, `expected_sentiment`, `category`,
`difficulty`). -/
structure TestCase where
  topic : String
  expected_sentiment : String
  category : String
  difficulty : String
deriving Repr, DecidableEq

/-- The fields of a successful purple-agent response that
`_assess_single_task` reads. -/
structure PredictionResult where
  sentiment : String
  confidence : ℚ
  sources_analyzed : Nat
deriving Repr, DecidableEq

/-- `GreenAgent._calculate_score`: fallback scoring when ground truth
is unavailable, keyed on `(expected, actual)`; the `confidence`
argument is accepted but unused, as in the source. -/
def calculate_score (expected actual : String) (confidence : ℚ) : ℚ :=
  if expected = actual then 1
  else
    match dictLookup close_matches (expected, actual) with
    | some x => x
    | none =>
        match dictLookup credit_matches (expected, actual) with
        | some x => x
        | none => 0

/-- `GreenAgent._assess_single_task`, success path: the pure result
construction given the parsed prediction and the elapsed time. -/
def assess_single_task (tc : TestCase) (pred : PredictionResult)
    (elapsed : ℚ) : AssessmentResult :=
  let gt := get_ground_truth tc.topic
  let acc := calculate_accuracy pred.sentiment tc.topic
  let acc2 :=
    if acc = 1/2 then calculate_score tc.expected_sentiment pred.sentiment pred.confidence
    else acc
  ⟨tc.topic, tc.expected_sentiment, pred.sentiment, pred.confidence,
   pred.sources_analyzed, decide (pred.sentiment = tc.expected_sentiment),
   acc2, elapsed, tc.category, tc.difficulty, gt.confidence, none⟩

/-- `GreenAgent._create_error_result`. -/
def create_error_result (tc : TestCase) (error : String) : AssessmentResult :=
  ⟨tc.topic, tc.expected_sentiment, "error", 0, 0, false, 0, 0,
   tc.category, tc.difficulty, 0, some error⟩

/-- The retry loop of `assess_purple_agent` for one topic, over the
outcomes of the successive attempts (one list entry per attempt, so a
list of length `max_retries`): first success wins; an error retries
while later attempts remain and otherwise yields the error result with
that last error message.  `none` is the `result = None` case (only
reachable with zero attempts). -/
def attempt_loop (tc : TestCase) :
    List (Except String (PredictionResult × ℚ)) → Option AssessmentResult
  | [] => none
  | Except.ok (p, t) :: _ => some (assess_single_task tc p t)
  | [Except.error e] => some (create_error_result tc e)
  | Except.error _ :: rest@(_ :: _) => attempt_loop tc rest

/-- `GreenAgent.assess_purple_agent`: the per-topic loop, with the
network modelled as `attempts tc i`, the outcome of attempt `i` on
topic `tc` (parsed prediction and elapsed time, or the stringified
exception).  A topic's result is appended only when the retry loop
produced one, as in the source's `if result:` guard. -/
def assess_purple_agent (test_cases : List TestCase) (max_retries : Nat)
    (attempts : TestCase → Nat → Except String (PredictionResult × ℚ)) :
    List AssessmentResult :=
  test_cases.filterMap
    (fun tc => attempt_loop tc ((List.range max_retries).map (attempts tc)))

/-- The `summary` dict of `generate_report`.  The wall-clock
`total_time` field depends on mutable timestamps outside the pure
result list and is not modelled. -/
structure Summary where
  total_tests : Nat
  successful_tests : Nat
  failed_tests : Nat
  correct : Nat
  accuracy : ℚ
  average_score : ℚ
  average_time : ℚ
  average_confidence : ℚ
  pass_rate : ℚ
deriving Repr, DecidableEq

/-- Per-category stats of `generate_report`. -/
structure CategoryStats where
  accuracy : ℚ
  average_score : ℚ
  average_time : ℚ
  total_tests : Nat
deriving Repr, DecidableEq

/-- Per-difficulty stats of `generate_report` (no `average_time`). -/
structure DifficultyStats where
  accuracy : ℚ
  average_score : ℚ
  total_tests : Nat
deriving Repr, DecidableEq

/-- The report dict.  The empty-input branch of the source returns
`{"error": ..., "summary": {}, "results": []}`: the `error` key is
present (`some`), the summary is the empty dict (`none`), and the
breakdown keys are absent (`[]`). -/
structure Report where
  error : Option String
  summary : Option Summary
  by_category : List (String × CategoryStats)
  by_difficulty : List (String × DifficultyStats)
  results : List AssessmentResult
deriving Repr, DecidableEq

/-- Keys of a Python dict built by insertion while iterating a list:
the distinct values in first-occurrence order. -/
def firstDedup : List String → List String
  | [] => []
  | s :: rest => s :: firstDedup (rest.filter (fun t => ¬t = s))
termination_by l => l.length
decreasing_by
  simp only [List.length_cons]
  exact Nat.lt_succ_of_le (List.length_filter_le _ _)

/-- Count of results with `error is None`. -/
def successfulCount (rs : List AssessmentResult) : Nat :=
  (rs.filter (fun r => r.error = none)).length

/-- Count of results with `correct` set. -/
def correctCount (rs : List AssessmentResult) : Nat :=
  (rs.filter (fun r => r.correct)).length

/-- `GreenAgent.generate_report`.  The source accumulates the per-group
dicts by iterating the result list; grouping by the distinct keys in
first-occurrence order and filtering yields the same dict. -/
def generate_report (rs : List AssessmentResult) : Report :=
  if rs = [] then ⟨some "No results available", none, [], [], []⟩
  else
    let total := rs.length
    let successful := successfulCount rs
    let correct := correctCount rs
    let total_score := (rs.map (·.accuracy_score)).sum
    let avg_time := (rs.map (·.time_taken)).sum / (total : ℚ)
    let avg_confidence :=
      ((rs.filter (fun r => r.error = none)).map (·.confidence)).sum
        / ((max successful 1 : Nat) : ℚ)
    let category_stats :=
      (firstDedup (rs.map (·.category))).map (fun c =>
        let grp := rs.filter (fun r => r.category = c)
        (c, CategoryStats.mk ((correctCount grp : ℚ) / (grp.length : ℚ))
              ((grp.map (·.accuracy_score)).sum / (grp.length : ℚ))
              ((grp.map (·.time_taken)).sum / (grp.length : ℚ))
              grp.length))
    let difficulty_stats :=
      (firstDedup (rs.map (·.difficulty))).map (fun d =>
        let grp := rs.filter (fun r => r.difficulty = d)
        (d, DifficultyStats.mk ((correctCount grp : ℚ) / (grp.length : ℚ))
              ((grp.map (·.accuracy_score)).sum / (grp.length : ℚ))
              grp.length))
    ⟨none,
     some ⟨total, successful, total - successful, correct,
           (correct : ℚ) / (total : ℚ), total_score / (total : ℚ), avg_time,
           avg_confidence, (correct : ℚ) / (total : ℚ)⟩,
     category_stats, difficulty_stats, rs⟩

/-! ## Spec-side scoring table and helper lemmas -/

/-- The scoring rubric of spec §4.3 for a verified verdict other than
`unknown`, written as the spec words it: exact match, then the
close-match pairs, then the ordered part-credit pairs, else 0.  Kept
separate from `calculate_accuracy` so the two can be compared. -/
def specScore (p v : String) : ℚ :=
  if p = v then 1
  else if (p = "mixed" ∧ v = "neutral") ∨ (p = "neutral" ∧ v = "mixed") then 3/5
  else if (p = "positive" ∧ v = "mixed") ∨ (p = "negative" ∧ v = "mixed") then 2/5
  else if (p = "mixed" ∧ v = "positive") ∨ (p = "mixed" ∧ v = "negative") then 3/10
  else 0

theorem dictLookup_close_eq (p v : String) :
    dictLookup close_matches (p, v) =
      if (p = "mixed" ∧ v = "neutral") ∨ (p = "neutral" ∧ v = "mixed")
      then some (3/5) else none := by
  by_cases hp1 : p = "mixed" <;> by_cases hp2 : p = "neutral" <;>
    by_cases hv1 : v = "neutral" <;> by_cases hv2 : v = "mixed" <;>
      simp_all [dictLookup, close_matches, List.find?, Prod.ext_iff, eq_comm]

theorem dictLookup_credit_eq (p v : String) :
    dictLookup credit_matches (p, v) =
      if (p = "positive" ∧ v = "mixed") ∨ (p = "negative" ∧ v = "mixed")
      then some (2/5)
      else if (p = "mixed" ∧ v = "positive") ∨ (p = "mixed" ∧ v = "negative")
      then some (3/10) else none := by
  by_cases hp1 : p = "positive" <;> by_cases hp2 : p = "negative" <;>
    by_cases hp3 : p = "mixed" <;> by_cases hv1 : v = "mixed" <;>
      by_cases hv2 : v = "positive" <;> by_cases hv3 : v = "negative" <;>
        simp_all [dictLookup, credit_matches, List.find?, Prod.ext_iff, eq_comm]

/-- For any topic, the stored verified sentiment is one of the three
verdicts that occur in `GROUND_TRUTH`, or the sentinel `unknown`. -/
theorem verified_sentiment_mem (t : String) :
    (get_ground_truth t).verified_sentiment
      ∈ ["positive", "negative", "mixed", "unknown"] := by
  rcases h : GROUND_TRUTH.find? (fun p => p.1 = t) with _ | e
  · simp [get_ground_truth, h]
  · have hmem := List.mem_of_find?_eq_some h
    have hall : ∀ x ∈ GROUND_TRUTH, x.2.verified_sentiment
        ∈ (["positive", "negative", "mixed", "unknown"] : List String) := by decide
    have hv := hall e hmem
    simp only [get_ground_truth, h]
    simpa using hv

/-- Every stored ground-truth entry has a known verdict; only the
sentinel carries `unknown`. -/
theorem find?_eq_none_iff_unknown (t : String) :
    GROUND_TRUTH.find? (fun p => p.1 = t) = none ↔
      (get_ground_truth t).verified_sentiment = "unknown" := by
  rcases h : GROUND_TRUTH.find? (fun p => p.1 = t) with _ | e
  · simp [get_ground_truth, h]
  · have hmem := List.mem_of_find?_eq_some h
    have hall : ∀ x ∈ GROUND_TRUTH, ¬x.2.verified_sentiment = "unknown" := by decide
    simp [get_ground_truth, h, hall e hmem]

/-- `calculate_accuracy` is the sentinel rule followed by the spec's
§4.3 table on the ordered pair `(predicted, verified)`. -/
theorem calculate_accuracy_eq_specScore (p t : String) :
    calculate_accuracy p t =
      if (get_ground_truth t).verified_sentiment = "unknown" then 1/2
      else specScore p (get_ground_truth t).verified_sentiment := by
  generalize hv : (get_ground_truth t).verified_sentiment = v
  simp only [calculate_accuracy, hv, specScore, dictLookup_close_eq, dictLookup_credit_eq]
  by_cases h0 : v = "unknown"
  · simp [h0]
  · by_cases h1 : p = v
    · simp [h0, h1]
    · by_cases h2 : (p = "mixed" ∧ v = "neutral") ∨ (p = "neutral" ∧ v = "mixed")
      · simp [h0, h1, h2]
      · by_cases h3 : (p = "positive" ∧ v = "mixed") ∨ (p = "negative" ∧ v = "mixed")
        · simp [h0, h1, h2, h3]
        · by_cases h4 : (p = "mixed" ∧ v = "positive") ∨ (p = "mixed" ∧ v = "negative")
          · simp [h0, h1, h2, h3, h4]
          · simp [h0, h1, h2, h3, h4]

/-- The spec table only takes the five rubric values. -/
theorem specScore_mem (p v : String) :
    specScore p v ∈ ({0, 3/10, 2/5, 3/5, 1} : Set ℚ) := by
  unfold specScore
  split_ifs <;> norm_num

/-- The spec table never yields the sentinel value 0.5. -/
theorem specScore_ne_half (p v : String) : specScore p v ≠ 1/2 := by
  unfold specScore
  split_ifs <;> norm_num

/-- The score stored by `_assess_single_task`: the ground-truth score
when the topic is in `GROUND_TRUTH`, the fallback score otherwise. -/
theorem accuracy_score_policy_aux (tc : TestCase) (pred : PredictionResult)
    (elapsed : ℚ) :
    (assess_single_task tc pred elapsed).accuracy_score =
      if (GROUND_TRUTH.find? (fun p => p.1 = tc.topic)).isSome
      then calculate_accuracy pred.sentiment tc.topic
      else calculate_score tc.expected_sentiment pred.sentiment pred.confidence := by
  have hspec := calculate_accuracy_eq_specScore pred.sentiment tc.topic
  rcases h : GROUND_TRUTH.find? (fun p => p.1 = tc.topic) with _ | e
  · have hunk : (get_ground_truth tc.topic).verified_sentiment = "unknown" :=
      (find?_eq_none_iff_unknown tc.topic).mp h
    have hacc : calculate_accuracy pred.sentiment tc.topic = 1/2 := by
      rw [hspec, if_pos hunk]
    simp [assess_single_task, hacc, h]
  · have hunk : ¬(get_ground_truth tc.topic).verified_sentiment = "unknown" := by
      intro hu
      have hn := (find?_eq_none_iff_unknown tc.topic).mpr hu
      rw [h] at hn
      cases hn
    have hacc : calculate_accuracy pred.sentiment tc.topic ≠ 1/2 := by
      rw [hspec, if_neg hunk]
      exact specScore_ne_half _ _
    have hproj : (assess_single_task tc pred elapsed).accuracy_score =
        if calculate_accuracy pred.sentiment tc.topic = 1/2
        then calculate_score tc.expected_sentiment pred.sentiment pred.confidence
        else calculate_accuracy pred.sentiment tc.topic := rfl
    rw [hproj, if_neg hacc, h]
    simp

/-- C1 counterexample: for a topic with no ground-truth entry the
Assessment Runner does not keep the Accuracy Scorer's 0.5 — a correct
prediction on an unknown topic is stored with accuracy 1.0 while
`calculate_accuracy` returns 0.5, so the claimed invariant fails. -/
theorem assess_accuracy_invariant_cex :
    (assess_single_task ⟨"Quantum Computers", "positive", "technology", "easy"⟩
        ⟨"positive", 9/10, 5⟩ 1).accuracy_score ≠
      calculate_accuracy "positive" "Quantum Computers" := by
  have hproj : (assess_single_task ⟨"Quantum Computers", "positive", "technology", "easy"⟩
      ⟨"positive", 9/10, 5⟩ 1).accuracy_score =
      if calculate_accuracy "positive" "Quantum Computers" = 1/2
      then calculate_score "positive" "positive" (9/10)
      else calculate_accuracy "positive" "Quantum Computers" := rfl
  rw [hproj, if_pos (show calculate_accuracy "positive" "Quantum Computers" = 1/2 from rfl),
    show calculate_score "positive" "positive" (9/10) = 1 from rfl,
    show calculate_accuracy "positive" "Quantum Computers" = 1/2 from rfl]
  norm_num

/-- C1 (amended): a successful AssessmentResult's `accuracy_score`
equals `calculate_accuracy (actual_sentiment, topic)` whenever the
topic has a ground-truth entry; when it has none (where
`calculate_accuracy` returns 0.5) the runner instead stores the
fallback score computed from `(expected_sentiment, actual_sentiment)`. -/
theorem assess_accuracy_score_policy (tc : TestCase) (pred : PredictionResult)
    (elapsed : ℚ) :
    (assess_single_task tc pred elapsed).accuracy_score =
      if (GROUND_TRUTH.find? (fun p => p.1 = tc.topic)).isSome
      then calculate_accuracy pred.sentiment tc.topic
      else calculate_score tc.expected_sentiment pred.sentiment pred.confidence :=
  accuracy_score_policy_aux tc pred elapsed

/-- C2 counterexample: predicting `mixed` for topic "iPhone 16"
(verified `positive`) does not score 0.0 — the ordered pair
`(mixed, positive)` is in the part-credit table. -/
theorem iphone16_mixed_cex : ¬calculate_accuracy "mixed" "iPhone 16" = 0 := by
  rw [show calculate_accuracy "mixed" "iPhone 16" = 3/10 from rfl]
  norm_num

/-- C2 (amended): for topic "iPhone 16" (verified `positive`) the
Accuracy Scorer returns 1.0 for predicted `positive` and 0.3 for
predicted `mixed`, via the `(mixed, positive)` entry of the
part-credit table. -/
theorem iphone16_scores :
    (get_ground_truth "iPhone 16").verified_sentiment = "positive" ∧
    calculate_accuracy "positive" "iPhone 16" = 1 ∧
    calculate_accuracy "mixed" "iPhone 16" = 3/10 :=
  ⟨rfl, rfl, rfl⟩

/-- C3: topics with no ground-truth entry are exactly those with
verified verdict `unknown` and score exactly 0.5 for every prediction;
otherwise the score is fixed by the spec's ordered-pair table, lies in
{0, 0.3, 0.4, 0.6, 1} and is 1 when the prediction equals the verified
verdict. -/
theorem calculate_accuracy_rubric (p t : String) :
    (GROUND_TRUTH.find? (fun e => e.1 = t) = none ↔
      (get_ground_truth t).verified_sentiment = "unknown") ∧
    ((get_ground_truth t).verified_sentiment = "unknown" →
      calculate_accuracy p t = 1/2) ∧
    ((get_ground_truth t).verified_sentiment ≠ "unknown" →
      calculate_accuracy p t = specScore p (get_ground_truth t).verified_sentiment ∧
      calculate_accuracy p t ∈ ({0, 3/10, 2/5, 3/5, 1} : Set ℚ) ∧
      calculate_accuracy (get_ground_truth t).verified_sentiment t = 1) := by
  refine ⟨find?_eq_none_iff_unknown t, ?_, ?_⟩
  · intro hu
    rw [calculate_accuracy_eq_specScore, if_pos hu]
  · intro hu
    have h1 : calculate_accuracy p t
        = specScore p (get_ground_truth t).verified_sentiment := by
      rw [calculate_accuracy_eq_specScore, if_neg hu]
    refine ⟨h1, ?_, ?_⟩
    · rw [h1]
      exact specScore_mem _ _
    · rw [calculate_accuracy_eq_specScore, if_neg hu]
      simp [specScore]

/-- C3 witness: a verified topic scores 1.0 on its own verdict and a
missing topic scores exactly 0.5. -/
theorem calculate_accuracy_rubric_witness :
    calculate_accuracy (get_ground_truth "ChatGPT").verified_sentiment "ChatGPT" = 1 ∧
    calculate_accuracy "positive" "Quantum Mining Rigs" = 1/2 :=
  ⟨((calculate_accuracy_rubric "mixed" "ChatGPT").2.2 (by decide)).2.2,
   (calculate_accuracy_rubric "positive" "Quantum Mining Rigs").2.1 (by decide)⟩

/-- C6: aggregating the empty judgment collection yields the safe
neutral outcome (verdict `neutral`, confidence 0, not controversial,
empty distribution) — the function is total, nothing is raised. -/
theorem aggregate_empty :
    (aggregate_advanced []).overall_sentiment = "neutral" ∧
    (aggregate_advanced []).confidence = 0 ∧
    (aggregate_advanced []).is_controversial = false ∧
    (aggregate_advanced []).distribution = [] :=
  ⟨rfl, rfl, rfl, rfl⟩

/-- C9: the Report Generator on zero results returns the well-formed
no-data report (the `error` field set, an empty summary, no result
rows) via the guarded early return, performing no division. -/
theorem generate_report_empty :
    (generate_report []).error = some "No results available" ∧
    (generate_report []).summary = none ∧
    (generate_report []).results = [] :=
  ⟨rfl, rfl, rfl⟩

/-- Characterisation of `detect_controversy`: false below 3 judgments,
otherwise the two-sided 25% fraction test. -/
theorem detect_controversy_iff (results : List SentimentResult) :
    (results.length < 3 → detect_controversy results = false) ∧
    (3 ≤ results.length →
      (detect_controversy results = true ↔
        1/4 ≤ (countSentiment results "positive" : ℚ) / (results.length : ℚ) ∧
        1/4 ≤ (countSentiment results "negative" : ℚ) / (results.length : ℚ))) := by
  constructor
  · intro h
    simp [detect_controversy, h]
  · intro h
    have h3 : ¬results.length < 3 := by omega
    simp [detect_controversy, h3, ge_iff_le, Bool.and_eq_true, decide_eq_true_eq]

/-- C4: when controversy is detected and the consensus verdict is
neither `mixed` nor `neutral`, `aggregate_advanced` force-overrides the
overall verdict to `mixed`, with the consensus confidence and the
controversy flag carried over unchanged. -/
theorem aggregate_controversy_override (results : List SentimentResult)
    (h1 : detect_controversy results = true)
    (h2 : ¬((consensus_based results (7/10)).1 = "mixed" ∨
        (consensus_based results (7/10)).1 = "neutral")) :
    (aggregate_advanced results).overall_sentiment = "mixed" ∧
    (aggregate_advanced results).confidence = (consensus_based results (7/10)).2 ∧
    (aggregate_advanced results).is_controversial = true := by
  have hne : results ≠ [] := by
    intro he
    rw [he] at h1
    simp [detect_controversy] at h1
  refine ⟨?_, ?_, ?_⟩ <;> simp [aggregate_advanced, hne, h1, h2]

/-- C4 witness: judgments positive@0.9, positive@0.8, negative@0.7 are
controversial; confidence-weighted aggregation alone picks `positive`
(weight 1.7/2.4 ≈ 0.708 ≥ 0.7, so consensus keeps it), yet the final
verdict is forced to `mixed`. -/
theorem aggregate_controversy_override_witness :
    detect_controversy
        [⟨"s1", "t1", "positive", 9/10, "q", "r"⟩,
         ⟨"s2", "t2", "positive", 8/10, "q", "r"⟩,
         ⟨"s3", "t3", "negative", 7/10, "q", "r"⟩] = true ∧
    (weighted_by_confidence
        [⟨"s1", "t1", "positive", 9/10, "q", "r"⟩,
         ⟨"s2", "t2", "positive", 8/10, "q", "r"⟩,
         ⟨"s3", "t3", "negative", 7/10, "q", "r"⟩]).1 = "positive" ∧
    (aggregate_advanced
        [⟨"s1", "t1", "positive", 9/10, "q", "r"⟩,
         ⟨"s2", "t2", "positive", 8/10, "q", "r"⟩,
         ⟨"s3", "t3", "negative", 7/10, "q", "r"⟩]).overall_sentiment = "mixed" ∧
    (aggregate_advanced
        [⟨"s1", "t1", "positive", 9/10, "q", "r"⟩,
         ⟨"s2", "t2", "positive", 8/10, "q", "r"⟩,
         ⟨"s3", "t3", "negative", 7/10, "q", "r"⟩]).is_controversial = true := by
  have hw : weighted_by_confidence
      [⟨"s1", "t1", "positive", 9/10, "q", "r"⟩,
       ⟨"s2", "t2", "positive", 8/10, "q", "r"⟩,
       ⟨"s3", "t3", "negative", 7/10, "q", "r"⟩] = ("positive", 17/24) := by
    simp [weighted_by_confidence, buildWeights, addWeight, maxByWeight]
    norm_num
  have hc : consensus_based
      [⟨"s1", "t1", "positive", 9/10, "q", "r"⟩,
       ⟨"s2", "t2", "positive", 8/10, "q", "r"⟩,
       ⟨"s3", "t3", "negative", 7/10, "q", "r"⟩] (7/10) = ("positive", 17/24) := by
    simp [consensus_based, hw]
    norm_num
  have hdet : detect_controversy
      [⟨"s1", "t1", "positive", 9/10, "q", "r"⟩,
       ⟨"s2", "t2", "positive", 8/10, "q", "r"⟩,
       ⟨"s3", "t3", "negative", 7/10, "q", "r"⟩] = true := by
    refine ((detect_controversy_iff _).2 (by simp)).mpr ?_
    rw [show countSentiment
        [⟨"s1", "t1", "positive", 9/10, "q", "r"⟩,
         ⟨"s2", "t2", "positive", 8/10, "q", "r"⟩,
         ⟨"s3", "t3", "negative", 7/10, "q", "r"⟩] "positive" = 2 from rfl,
      show countSentiment
        [⟨"s1", "t1", "positive", 9/10, "q", "r"⟩,
         ⟨"s2", "t2", "positive", 8/10, "q", "r"⟩,
         ⟨"s3", "t3", "negative", 7/10, "q", "r"⟩] "negative" = 1 from rfl]
    norm_num
  have h2 : ¬((consensus_based
      [⟨"s1", "t1", "positive", 9/10, "q", "r"⟩,
       ⟨"s2", "t2", "positive", 8/10, "q", "r"⟩,
       ⟨"s3", "t3", "negative", 7/10, "q", "r"⟩] (7/10)).1 = "mixed" ∨
      (consensus_based
      [⟨"s1", "t1", "positive", 9/10, "q", "r"⟩,
       ⟨"s2", "t2", "positive", 8/10, "q", "r"⟩,
       ⟨"s3", "t3", "negative", 7/10, "q", "r"⟩] (7/10)).1 = "neutral") := by
    rw [hc]
    simp
  exact ⟨hdet, by rw [hw],
    (aggregate_controversy_override _ hdet h2).1,
    (aggregate_controversy_override _ hdet h2).2.2⟩

/-- C5: controversy detection is false for fewer than 3 judgments
regardless of content, and for at least 3 judgments holds exactly when
the positive and negative fractions are simultaneously ≥ 0.25. -/
theorem detect_controversy_spec (results : List SentimentResult) :
    (results.length < 3 → detect_controversy results = false) ∧
    (3 ≤ results.length →
      (detect_controversy results = true ↔
        1/4 ≤ (countSentiment results "positive" : ℚ) / (results.length : ℚ) ∧
        1/4 ≤ (countSentiment results "negative" : ℚ) / (results.length : ℚ))) :=
  detect_controversy_iff results

/-- C5 witness: two all-positive judgments are never controversial; a
balanced 3-judgment collection is. -/
theorem detect_controversy_spec_witness :
    detect_controversy
        [⟨"a1", "b1", "positive", 9/10, "q", "r"⟩,
         ⟨"a2", "b2", "positive", 85/100, "q", "r"⟩] = false ∧
    detect_controversy
        [⟨"a1", "b1", "positive", 1, "q", "r"⟩,
         ⟨"a2", "b2", "negative", 1, "q", "r"⟩,
         ⟨"a3", "b3", "neutral", 1, "q", "r"⟩] = true := by
  constructor
  · exact (detect_controversy_spec _).1 (by simp)
  · refine ((detect_controversy_spec _).2 (by simp)).mpr ?_
    rw [show countSentiment
        [⟨"a1", "b1", "positive", 1, "q", "r"⟩,
         ⟨"a2", "b2", "negative", 1, "q", "r"⟩,
         ⟨"a3", "b3", "neutral", 1, "q", "r"⟩] "positive" = 1 from rfl,
      show countSentiment
        [⟨"a1", "b1", "positive", 1, "q", "r"⟩,
         ⟨"a2", "b2", "negative", 1, "q", "r"⟩,
         ⟨"a3", "b3", "neutral", 1, "q", "r"⟩] "negative" = 1 from rfl]
    norm_num

/-- Inserting one occurrence into a counter raises the total count by
one. -/
theorem sum_insertCount (acc : List (String × Nat)) (s : String) :
    ((insertCount acc s).map Prod.snd).sum = ((acc.map Prod.snd).sum) + 1 := by
  induction acc with
  | nil => simp [insertCount]
  | cons p rest ih =>
      rcases p with ⟨t, n⟩
      by_cases h : t = s
      · simp [insertCount, h]
        omega
      · simp [insertCount, h, ih]
        omega

theorem sum_counterOf_aux (ss : List String) (acc : List (String × Nat)) :
    ((ss.foldl insertCount acc).map Prod.snd).sum
      = ((acc.map Prod.snd).sum) + ss.length := by
  induction ss generalizing acc with
  | nil => simp
  | cons s ss ih =>
      simp only [List.foldl_cons, ih, sum_insertCount, List.length_cons]
      omega

/-- A counter's counts total the length of the counted list. -/
theorem sum_counterOf (ss : List String) :
    ((counterOf ss).map Prod.snd).sum = ss.length := by
  simpa [counterOf] using sum_counterOf_aux ss []

theorem sum_map_div (l : List (String × Nat)) (d : ℚ) :
    (l.map (fun p => ((p.2 : ℚ) / d))).sum = (((l.map Prod.snd).sum : ℕ) : ℚ) / d := by
  induction l with
  | nil => simp
  | cons p rest ih =>
      simp only [List.map_cons, List.sum_cons, ih]
      push_cast
      rw [add_div]

/-- C7: the verdict distribution of a non-empty judgment collection
sums to 1 (exactly, hence within the 1e-9 tolerance); for the empty
collection the distribution is empty. -/
theorem distribution_sums_to_one (results : List SentimentResult) :
    (results ≠ [] →
      |((get_sentiment_distribution results).map Prod.snd).sum - 1| ≤ 1/1000000000) ∧
    (results = [] → get_sentiment_distribution results = []) := by
  constructor
  · intro h
    have hlen : results.length ≠ 0 := by
      simpa using h
    have hlenQ : ((results.length : ℚ)) ≠ 0 := by
      exact_mod_cast hlen
    have hsum : ((get_sentiment_distribution results).map Prod.snd).sum = 1 := by
      simp only [get_sentiment_distribution, if_neg h, List.map_map]
      have hcomp : (Prod.snd ∘ fun p : String × Nat =>
          (p.1, ((p.2 : ℚ) / (results.length : ℚ)))) =
          fun p : String × Nat => ((p.2 : ℚ) / (results.length : ℚ)) := rfl
      rw [hcomp, sum_map_div, sum_counterOf, List.length_map]
      exact div_self hlenQ
    rw [hsum]
    norm_num
  · intro h
    simp [get_sentiment_distribution, h]

/-- C7 witness: a singleton judgment collection has distribution
summing to 1 within tolerance. -/
theorem distribution_sums_to_one_witness :
    |((get_sentiment_distribution
        [⟨"a", "b", "positive", 1/2, "q", "r"⟩]).map Prod.snd).sum - 1|
      ≤ 1/1000000000 :=
  (distribution_sums_to_one _).1 (by simp)

/-- If every attempt failed, the retry loop returns the error result
built from the last attempt's error message. -/
theorem attempt_loop_all_error (tc : TestCase) :
    ∀ (l : List (Except String (PredictionResult × ℚ))) (e : String),
      (∀ x ∈ l, ∃ s, x = Except.error s) →
      l.getLast? = some (Except.error e) →
      attempt_loop tc l = some (create_error_result tc e) := by
  intro l
  induction l with
  | nil =>
      intro e _ hlast
      simp at hlast
  | cons x xs ih =>
      intro e hall hlast
      obtain ⟨s, rfl⟩ := hall x (List.mem_cons_self x xs)
      cases xs with
      | nil =>
          have hse : s = e := by
            simpa using hlast
          rw [hse]
          simp [attempt_loop]
      | cons y ys =>
          have hrec := ih e (fun x hx => hall x (List.mem_cons_of_mem _ hx))
            (by simpa using hlast)
          simpa [attempt_loop] using hrec

/-- The final element of the attempt list for `max_retries ≥ 1`
attempts is the outcome of attempt `max_retries - 1`. -/
theorem range_map_getLast? {α : Type} (n : Nat) (f : Nat → α) (h : 1 ≤ n) :
    ((List.range n).map f).getLast? = some (f (n - 1)) := by
  obtain ⟨m, rfl⟩ : ∃ m, n = m + 1 := ⟨n - 1, by omega⟩
  rw [List.range_succ, List.map_append]
  simp

/-- C8: if every prediction attempt for a topic fails, the batch loop
does not propagate the failure: the batch result is the surrounding
topics' results with, in place, a degraded AssessmentResult carrying
`actual_sentiment = "error"`, `accuracy_score = 0`, `correct = false`
and the last attempt's error message. -/
theorem error_containment
    (pre post : List TestCase) (tc : TestCase) (max_retries : Nat)
    (attempts : TestCase → Nat → Except String (PredictionResult × ℚ))
    (es : Nat → String)
    (hmr : 1 ≤ max_retries)
    (hfail : ∀ i < max_retries, attempts tc i = Except.error (es i)) :
    assess_purple_agent (pre ++ tc :: post) max_retries attempts =
      assess_purple_agent pre max_retries attempts ++
        create_error_result tc (es (max_retries - 1)) ::
          assess_purple_agent post max_retries attempts ∧
    (create_error_result tc (es (max_retries - 1))).actual_sentiment = "error" ∧
    (create_error_result tc (es (max_retries - 1))).accuracy_score = 0 ∧
    (create_error_result tc (es (max_retries - 1))).correct = false ∧
    (create_error_result tc (es (max_retries - 1))).error
      = some (es (max_retries - 1)) := by
  refine ⟨?_, rfl, rfl, rfl, rfl⟩
  have hloop : attempt_loop tc ((List.range max_retries).map (attempts tc)) =
      some (create_error_result tc (es (max_retries - 1))) := by
    apply attempt_loop_all_error
    · intro x hx
      rw [List.mem_map] at hx
      obtain ⟨i, hi, rfl⟩ := hx
      rw [List.mem_range] at hi
      exact ⟨es i, by rw [hfail i hi]⟩
    · rw [range_map_getLast? max_retries (attempts tc) hmr,
        hfail (max_retries - 1) (by omega)]
  simp [assess_purple_agent, List.filterMap_append, List.filterMap_cons, hloop]

/-- C8 witness: one topic whose three attempts all fail yields exactly
the degraded error result. -/
theorem error_containment_witness :
    assess_purple_agent [⟨"Mars colony", "positive", "science", "hard"⟩] 3
        (fun _ _ => Except.error "connection refused") =
      [create_error_result ⟨"Mars colony", "positive", "science", "hard"⟩
        "connection refused"] := by
  have h := (error_containment [] [] ⟨"Mars colony", "positive", "science", "hard"⟩ 3
      (fun _ _ => Except.error "connection refused") (fun _ => "connection refused")
      (by omega) (fun i _ => rfl)).1
  simpa [assess_purple_agent] using h

/-- The sorted confidence list of a judgment collection (Python's
`sorted(confidences)`). -/
def sortedConf (results : List SentimentResult) : List ℚ :=
  (results.map (·.confidence)).insertionSort (· ≤ ·)

/-- C10: for a non-empty collection the reported "median" is the entry
at index ⌊n/2⌋ of the sorted confidence list; when n is even, that is
the upper of the two middle values (never below the lower one). -/
theorem median_upper_middle (results : List SentimentResult) (h : results ≠ []) :
    (calculate_confidence_stats results).median =
      (sortedConf results).get? (results.length / 2) ∧
    (results.length % 2 = 0 →
      ∀ a b, (sortedConf results).get? (results.length / 2 - 1) = some a →
        (sortedConf results).get? (results.length / 2) = some b →
        (calculate_confidence_stats results).median = some b ∧ a ≤ b) := by
  obtain ⟨r, rs, rfl⟩ : ∃ r rs, results = r :: rs := by
    cases results with
    | nil => exact absurd rfl h
    | cons r rs => exact ⟨r, rs, rfl⟩
  have hfst : (calculate_confidence_stats (r :: rs)).median =
      (sortedConf (r :: rs)).get? ((r :: rs).length / 2) := by
    simp [calculate_confidence_stats, sortedConf]
  refine ⟨hfst, ?_⟩
  intro hev a b ha hb
  refine ⟨by rw [hfst]; exact hb, ?_⟩
  have hsorted : List.Sorted (· ≤ ·) (sortedConf (r :: rs)) := by
    unfold sortedConf
    exact List.sorted_insertionSort _ _
  obtain ⟨hb_lt, hb_eq⟩ := List.get?_eq_some.mp hb
  obtain ⟨ha_lt, ha_eq⟩ := List.get?_eq_some.mp ha
  have hlen2 : 2 ≤ (r :: rs).length := by
    have hl : (r :: rs).length = rs.length + 1 := rfl
    omega
  have hidx : ((r :: rs).length / 2 - 1) < (r :: rs).length / 2 := by
    omega
  rw [← ha_eq, ← hb_eq]
  exact hsorted.rel_get_of_lt hidx

/-- C10 witness: for the even-sized confidence list [0.4, 0.8] the
median is 0.8 — the upper middle value — and not the arithmetic mean
0.6 of the two middle values. -/
theorem median_upper_middle_witness :
    (calculate_confidence_stats
        [⟨"a", "b", "positive", 2/5, "q", "r"⟩,
         ⟨"c", "d", "negative", 4/5, "q", "r"⟩]).median = some (4/5) ∧
    (2 : ℚ)/5 ≤ 4/5 ∧ (4 : ℚ)/5 ≠ ((2 : ℚ)/5 + 4/5) / 2 := by
  have hs : sortedConf
      [⟨"a", "b", "positive", 2/5, "q", "r"⟩,
       ⟨"c", "d", "negative", 4/5, "q", "r"⟩] = [2/5, 4/5] := by
    simp [sortedConf, List.insertionSort, List.orderedInsert]
    norm_num
  have h := (median_upper_middle
      [⟨"a", "b", "positive", 2/5, "q", "r"⟩,
       ⟨"c", "d", "negative", 4/5, "q", "r"⟩]
      (by simp)).2 (by simp) (2/5) (4/5) (by rw [hs]; rfl) (by rw [hs]; rfl)
  exact ⟨h.1, h.2, by norm_num⟩

end AgentX
